import Mathlib

/-!
Verification development for the WinSight window-management / screen-capture
server.  The definitions below are a shallow embedding of the Python sources
(`window_manager.py`, `process_manager.py`, `screenshot.py`, `server.py`):

* OS state (the window table, the foreground window, the monitor table) is an
  explicit value;
* Win32 / pywin32 calls that can raise are modelled as `Except String`
  results supplied by the environment;
* wall-clock time is modelled as a rational elapsed-time counter that
  advances exactly by the duration of each `time.sleep` call (every
  `time.time()` reading returns the current counter);
* loops take an explicit fuel argument, `none` meaning out of fuel.
-/

namespace WinSight

/-- `win32con.SW_SHOWMINIMIZED`. -/
def SW_SHOWMINIMIZED : Nat := 2

/-- `win32con.SW_SHOWMAXIMIZED`. -/
def SW_SHOWMAXIMIZED : Nat := 3

/-- `win32con.SW_SHOW`. -/
def SW_SHOW : Nat := 5

/-- `win32con.SW_MINIMIZE`. -/
def SW_MINIMIZE : Nat := 6

/-- `win32con.SW_MAXIMIZE`. -/
def SW_MAXIMIZE : Nat := 3

/-- `win32con.SW_RESTORE`. -/
def SW_RESTORE : Nat := 9

/-- `win32con.HWND_TOP`. -/
def HWND_TOP : Nat := 0

/-- `win32con.SWP_NOSIZE`. -/
def SWP_NOSIZE : Nat := 1

/-- `win32con.SWP_NOMOVE`. -/
def SWP_NOMOVE : Nat := 2

/-- `win32con.SWP_NOZORDER`. -/
def SWP_NOZORDER : Nat := 4

/-- One top-level OS window as seen through the win32gui query functions:
`IsWindowVisible`, `GetWindowText`, `GetWindowRect` (left, top, right,
bottom) and `GetWindowPlacement` (the `showCmd` slot). -/
structure OSWindow where
  hwnd : Nat
  visible : Bool
  title : String
  left : Int
  top : Int
  right : Int
  bottom : Int
  showCmd : Nat
deriving DecidableEq, Repr

/-- The `WindowInfo` TypedDict of `types.py`. -/
structure WindowInfo where
  title : String
  hwnd : Nat
  left : Int
  top : Int
  width : Int
  height : Int
  minimized : Bool
  maximized : Bool
deriving DecidableEq, Repr

/-- The `WindowListEntry` TypedDict of `types.py` (`WindowInfo` + `active`). -/
structure WindowListEntry where
  info : WindowInfo
  active : Bool
deriving DecidableEq, Repr

/-- Truthiness of `title.strip()` in Python: the stripped string is non-empty
iff some character is not whitespace.  (Python's whitespace set is
approximated by `Char.isWhitespace`, which covers the ASCII whitespace
characters appearing in window titles.) -/
def stripTruthy (s : String) : Bool :=
  s.data.any (fun c => !c.isWhitespace)

/-- Auxiliary for `strContains`: does the second list start with the first? -/
def startsWithL : List Char → List Char → Bool
  | [], _ => true
  | _ :: _, [] => false
  | a :: as, b :: bs => decide (a = b) && startsWithL as bs

/-- Auxiliary for `strContains`: does the needle occur at some position of the
haystack?  (Checked at every suffix, including the empty one.) -/
def containsL (needle : List Char) : List Char → Bool
  | [] => startsWithL needle []
  | b :: bs => startsWithL needle (b :: bs) || containsL needle bs

/-- Python's `needle in hay` on strings: substring containment (the empty
needle is contained in everything). -/
def strContains (needle hay : String) : Bool :=
  containsL needle.data hay.data

/-- Python's `str.lower()`: per-character lowering.  (`Char.toLower` lowers
the ASCII range, matching the titles and queries in scope.) -/
def pyLower (s : String) : String :=
  String.mk (s.data.map Char.toLower)

/-- `_is_candidate(hwnd, filter_lower)` from `window_manager.py`: the title if
the window is visible, has a truthy (non-empty, non-whitespace-only) title
and matches the optional lower-cased filter substring, else `None`. -/
def isCandidate (w : OSWindow) (filterLower : Option String) : Option String :=
  if !w.visible then none
  else
    let title := w.title
    let isMatch : Bool :=
      (decide (title ≠ "") && stripTruthy title) &&
        (match filterLower with
          | none => true
          | some f => strContains f (pyLower title))
    if isMatch then some title else none

/-- `_build_window_info(hwnd, title)` from `window_manager.py`. -/
def buildWindowInfo (w : OSWindow) (title : String) : WindowInfo :=
  { title := title
    hwnd := w.hwnd
    left := w.left
    top := w.top
    width := w.right - w.left
    height := w.bottom - w.top
    minimized := w.showCmd == SW_SHOWMINIMIZED
    maximized := w.showCmd == SW_SHOWMAXIMIZED }

/-- The OS state visible to `EnumWindows` based code: the window table in
enumeration order and the current foreground window handle. -/
structure OSState where
  windows : List OSWindow
  foreground : Nat
deriving Repr

/-- `list_windows(filter_text)` from `window_manager.py`.  The Python code
computes `filter_lower = filter_text.lower() if filter_text else None`
(so the empty string behaves like `None`), then appends an entry for every
candidate window, adding `active = (hwnd == GetForegroundWindow())`. -/
def list_windows (os : OSState) (filterText : Option String) : List WindowListEntry :=
  let filterLower : Option String :=
    match filterText with
    | some t => if t = "" then none else some (pyLower t)
    | none => none
  os.windows.filterMap (fun w =>
    (isCandidate w filterLower).map (fun title =>
      { info := buildWindowInfo w title, active := w.hwnd == os.foreground }))

/-- The enumeration loop of `find_window(title)` from `window_manager.py`.
`failAfter = some k` models `EnumWindows` raising an exception right after
the callback has been invoked on the first `k` windows (the exception is
caught by `find_window`'s `except Exception: pass`, which then returns the
contents of `container`).  The callback appends the first candidate and
returns `False`, stopping enumeration, so a failure after a match leaves the
match in place. -/
def findWindowAux (titleLower : String) : List OSWindow → Option Nat → Option WindowInfo
  | [], _ => none
  | w :: rest, fa =>
    match fa with
    | some 0 => none
    | _ =>
      match isCandidate w (some titleLower) with
      | some t => some (buildWindowInfo w t)
      | none => findWindowAux titleLower rest (fa.map (· - 1))

/-- `find_window(title)` from `window_manager.py`: first visible window whose
title contains `title` case-insensitively; enumeration failures are
swallowed. -/
def find_window (ws : List OSWindow) (failAfter : Option Nat) (title : String) :
    Option WindowInfo :=
  findWindowAux (pyLower title) ws failAfter

/-- Sleep duration chosen by the adaptive polling loops of
`wait_for_window` (`window_manager.py`) and `_wait_for_window`
(`process_manager.py`): `0.2 if elapsed < 5 else 0.5`. -/
def sleepDur (elapsed : ℚ) : ℚ :=
  if elapsed < 5 then 1/5 else 1/2

/-- The shared polling loop of `wait_for_window` / `_wait_for_window`:

    start = time.time()
    while time.time() - start < timeout:
        w = find_window(title)
        if w is not None: return w
        elapsed = time.time() - start
        time.sleep(0.2 if elapsed < 5 else 0.5)
    return None

`locate i` is the result of the `i`-th `find_window` call; `e` is the
elapsed time, which advances exactly by each `time.sleep` duration (all
other work is modelled as instantaneous, matching the spec's idealized
timing).  On return, the result carries the elapsed time at which the
function returned.  `none` means the fuel ran out before the loop did. -/
def waitCore (locate : Nat → Option WindowInfo) (timeout : ℚ) :
    Nat → Nat → ℚ → Option (Option WindowInfo × ℚ)
  | 0, _, _ => none
  | fuel + 1, i, e =>
    if e < timeout then
      match locate i with
      | some w => some (some w, e)
      | none => waitCore locate timeout fuel (i + 1) (e + sleepDur e)
    else
      some (none, e)

/-- `_wait_for_window(title, timeout)` from `process_manager.py`: the polling
loop started at elapsed time 0, returning the found window or `None`. -/
def pollForWindow (locate : Nat → Option WindowInfo) (timeout : ℚ) (fuel : Nat) :
    Option (Option WindowInfo × ℚ) :=
  waitCore locate timeout fuel 0 0

/-- `wait_for_window(window_title, timeout)` from `window_manager.py`: the
same loop, rendering the outcome as the status strings of the source. -/
def wait_for_window (locate : Nat → Option WindowInfo) (windowTitle : String)
    (timeout : ℚ) (fuel : Nat) : Option String :=
  (waitCore locate timeout fuel 0 0).map (fun r =>
    match r.1 with
    | some w => "Window found: '" ++ w.title ++ "'"
    | none =>
      "Timed out waiting for window matching '" ++ windowTitle ++ "' after "
        ++ toString timeout ++ "s")

/-- Follows the claim's words, for comparison with `waitCore`: "call locate;
if found, return the window immediately; else, if elapsed time since loop
start is at least T, return absent; else sleep (0.2s while elapsed < 5s,
else 0.5s) and retry" — i.e. the locate call precedes the timeout check. -/
def waitClaimOrder (locate : Nat → Option WindowInfo) (timeout : ℚ) :
    Nat → Nat → ℚ → Option (Option WindowInfo × ℚ)
  | 0, _, _ => none
  | fuel + 1, i, e =>
    match locate i with
    | some w => some (some w, e)
    | none =>
      if timeout ≤ e then some (none, e)
      else waitClaimOrder locate timeout fuel (i + 1) (e + sleepDur e)

/-! ### Screen capture (`screenshot.py`) -/

/-- One entry of `mss.mss().monitors`: a dict with `left`, `top`, `width`,
`height`.  Entry 0 is the virtual combined desktop. -/
structure MssMonitor where
  left : Int
  top : Int
  width : Int
  height : Int
deriving DecidableEq, Repr, Inhabited

/-- An in-memory raster image (the abstraction of a PIL image: geometry plus
raw pixel bytes). -/
structure RawImage where
  width : Int
  height : Int
  pixels : List Nat
deriving DecidableEq, Repr, Inhabited

/-- The 8-byte PNG file signature. -/
def pngSignature : List Nat := [137, 80, 78, 71, 13, 10, 26, 10]

/-- Models the external Pillow library's PNG writer
(`pil_img.save(buffer, format="PNG")`): the output stream always begins
with the 8-byte PNG signature; the encoded payload is abstracted as the raw
image bytes. -/
def pilSavePng (img : RawImage) : List Nat :=
  pngSignature ++ img.pixels

/-- `capture_full_screen(monitor)` from `screenshot.py`.  `grab` models
`sct.grab` composed with `PILImage.frombytes` (an external-library step that
turns a monitor rect into a raster image).  The index check is the code's
own: raise `ValueError` iff `monitor < 0 or monitor >= len(monitors)`. -/
def capture_full_screen (grab : MssMonitor → RawImage) (monitors : List MssMonitor)
    (monitor : Int) : Except String (List Nat) :=
  if monitor < 0 ∨ (monitors.length : Int) ≤ monitor then
    .error ("Monitor " ++ toString monitor ++ " not found. Available: 0-"
      ++ toString (monitors.length - 1) ++ " (0 = all monitors combined)")
  else
    .ok (pilSavePng (grab (monitors.getD monitor.toNat default)))

/-- The Win32 graphics resources acquired by `capture_window_hwnd`: the
window device context (`GetWindowDC`), the MFC DC wrapper
(`CreateDCFromHandle`), the compatible memory DC (`CreateCompatibleDC`) and
the bitmap (`CreateBitmap` / `CreateCompatibleBitmap`). -/
inductive Win32Res where
  | windowDC
  | mfcDC
  | saveDC
  | bitmap
deriving DecidableEq, Repr

/-- Environment for one `capture_window_hwnd(hwnd)` call: the window rect
reported by `GetWindowRect` and the bitmap data reported by
`bitmap.GetInfo()` / `bitmap.GetBitmapBits(True)`. -/
structure HwndCaptureEnv where
  left : Int
  top : Int
  right : Int
  bottom : Int
  bmWidth : Int
  bmHeight : Int
  bits : List Nat
deriving DecidableEq, Repr

/-- `capture_window_hwnd(hwnd)` from `screenshot.py`, instrumented with the
acquire/release log of its Win32 resources.  Returns
`(result, acquired, released)`.  The pixel-conversion step models Pillow's
`Image.frombuffer("RGB", (w, h), bits, "raw", "BGRX", 0, 1)`, which raises
`ValueError("not enough image data")` when fewer than `w*h*4` bytes are
supplied.  The source releases the four resources only after a successful
conversion (there is no `try`/`finally`), which this embedding preserves. -/
def capture_window_hwnd (env : HwndCaptureEnv) :
    Except String (List Nat) × List Win32Res × List Win32Res :=
  let width := env.right - env.left
  let height := env.bottom - env.top
  if width ≤ 0 ∨ height ≤ 0 then
    (.error ("Window has invalid dimensions: " ++ toString width ++ "x"
      ++ toString height), [], [])
  else
    let acquired : List Win32Res :=
      [Win32Res.windowDC, Win32Res.mfcDC, Win32Res.saveDC, Win32Res.bitmap]
    if env.bits.length < 4 * (env.bmWidth.toNat * env.bmHeight.toNat) then
      (.error "not enough image data", acquired, [])
    else
      (.ok (pilSavePng
          { width := env.bmWidth, height := env.bmHeight, pixels := env.bits }),
        acquired,
        [Win32Res.bitmap, Win32Res.saveDC, Win32Res.mfcDC, Win32Res.windowDC])

/-- The `MonitorInfo` TypedDict of `types.py`. -/
structure MonitorRecord where
  index : Nat
  width : Int
  height : Int
  x : Int
  y : Int
  is_primary : Bool
deriving DecidableEq, Repr

/-- Modelled from the spec: the body of `screenshot.list_monitors` is not
present under `src/` (only its import in `server.py` and its tests are).
Spec 4.4: "enumerates physical monitors (excluding the virtual combined
entry), 1-based index, primary flag true for exactly the monitor whose
top-left origin is (0,0)". -/
def list_monitors (monitors : List MssMonitor) : List MonitorRecord :=
  (monitors.drop 1).enum.map (fun (p : Nat × MssMonitor) =>
    { index := p.1 + 1
      width := p.2.width
      height := p.2.height
      x := p.2.left
      y := p.2.top
      is_primary := decide (p.2.left = 0 ∧ p.2.top = 0) })

/-! ### Process launching (`process_manager.py`) -/

/-- The `WindowRect` TypedDict of `types.py`. -/
structure WindowRect where
  title : String
  hwnd : Nat
  left : Int
  top : Int
  width : Int
  height : Int
deriving DecidableEq, Repr

/-- `_window_rect(w)` from `process_manager.py`. -/
def windowRect (w : WindowInfo) : WindowRect :=
  { title := w.title, hwnd := w.hwnd, left := w.left, top := w.top,
    width := w.width, height := w.height }

/-- The `ProcessResult` TypedDict of `types.py` (all fields optional). -/
structure ProcessResult where
  pid : Option Nat := none
  command : Option String := none
  script : Option String := none
  window : Option WindowRect := none
  window_warning : Option String := none
  error : Option String := none
  stdout : Option String := none
  stderr : Option String := none
  returncode : Option Int := none
  note : Option String := none
deriving DecidableEq, Repr

/-- Outcome of the `subprocess.Popen` call in `open_application`:
a pid, a `FileNotFoundError`, or any other exception (with its message). -/
inductive SpawnOutcome where
  | ok (pid : Nat)
  | fileNotFound
  | failure (msg : String)
deriving DecidableEq, Repr

/-- Outcome of `proc.communicate(timeout=3)` in `run_python_script`:
either the decoded output and return code, or `subprocess.TimeoutExpired`. -/
inductive CommOutcome where
  | done (out err : String) (code : Int)
  | timedOut
deriving DecidableEq, Repr

/-- `open_application(command, args, wait_for_window, timeout)` from
`process_manager.py`.  `spawn` is the outcome of the `Popen` call; `locate`
feeds the `_wait_for_window` polling loop.  `args` only contributes to the
spawned command line, which the spawn outcome already accounts for.  The
guard `if wait_for_window:` is Python truthiness, so the empty string skips
the wait.  A `none` result means the polling-loop model ran out of fuel. -/
def open_application (spawn : SpawnOutcome) (locate : Nat → Option WindowInfo)
    (command : String) (_args : List String) (waitForWindow : Option String)
    (timeout : Int) (fuel : Nat) : Option ProcessResult :=
  match spawn with
  | .fileNotFound => some { error := some ("Command not found: " ++ command) }
  | .failure e => some { error := some ("Failed to launch: " ++ e) }
  | .ok pid =>
    let base : ProcessResult := { pid := some pid, command := some command }
    match waitForWindow with
    | none => some base
    | some wt =>
      if wt = "" then some base
      else
        match pollForWindow locate (timeout : ℚ) fuel with
        | none => none
        | some (some w, _) => some { base with window := some (windowRect w) }
        | some (none, _) =>
          let warning : String := "Window matching '" ++ wt ++ "' not found within "
            ++ toString timeout ++ "s"
          some { base with window_warning := some warning }

/-- Python's `window = find_window(wait_for_window) or window` in
`run_python_script`: the re-queried window when present (a non-empty
`WindowInfo` dict is always truthy), else the originally found one. -/
def pyOrWindow (requery : Option WindowInfo) (w : WindowInfo) : WindowInfo :=
  match requery with
  | some w2 => w2
  | none => w

/-- `run_python_script(script_path, wait_for_window, capture_after, timeout)`
from `process_manager.py`.  The single `except Exception` around `Popen`
makes every spawn failure a generic `"Failed to run script: ..."` error, so
`spawn` is an `Except`.  When the initial wait finds a window `w`, the code
sleeps `capture_after` seconds and re-queries:
`window = find_window(wait_for_window) or window` — `requery` is the result
of that later `find_window` call (a `WindowInfo` dict is always truthy, so
`or` picks `requery` exactly when it is not `None`).  `comm` is the outcome
of `proc.communicate(timeout=3)`. -/
def run_python_script (spawn : Except String Nat) (locate : Nat → Option WindowInfo)
    (requery : Option WindowInfo) (comm : CommOutcome) (scriptPath : String)
    (waitForWindow : Option String) (_captureAfter : ℚ) (timeout : Int)
    (fuel : Nat) : Option ProcessResult :=
  match spawn with
  | .error e => some { error := some ("Failed to run script: " ++ e) }
  | .ok pid =>
    let base : ProcessResult := { pid := some pid, script := some scriptPath }
    let afterWait : Option ProcessResult :=
      match waitForWindow with
      | none => some base
      | some wt =>
        if wt = "" then some base
        else
          match pollForWindow locate (timeout : ℚ) fuel with
          | none => none
          | some (some w, _) =>
            some { base with window := some (windowRect (pyOrWindow requery w)) }
          | some (none, _) =>
            let warning : String := "Window matching '" ++ wt ++ "' not found within "
              ++ toString timeout ++ "s"
            some { base with window_warning := some warning }
    afterWait.map (fun r =>
      match comm with
      | .done out err code =>
        { r with stdout := some out, stderr := some err, returncode := some code }
      | .timedOut => { r with note := some "Process still running (GUI app likely)" })

/-! ### Window manipulation (`window_manager.py`) -/

/-- The pywin32 calls used inside the `try` blocks of the six manipulation
operations.  Each call either succeeds or raises (`Except.error` carries the
exception's message).  The `ctypes` calls (`GetCurrentThreadId`,
`GetWindowThreadProcessId`, `AttachThreadInput`) report failure through
return codes rather than exceptions and so do not appear as failure
sources; `time.sleep` is a no-op for the result value. -/
structure OsApi where
  getForegroundWindow : Except String Nat
  showWindow : Nat → Nat → Except String Unit
  bringWindowToTop : Nat → Except String Unit
  setForegroundWindow : Nat → Except String Unit
  setWindowPos : Nat → Nat → Int → Int → Int → Int → Nat → Except String Unit

/-- `_force_foreground(hwnd)` from `window_manager.py`: the chain of
raisable calls inside it (the `try`/`finally` detach is a non-raising
`ctypes` call, so it does not change the propagated result). -/
def force_foreground (api : OsApi) (hwnd : Nat) : Except String Unit := do
  let _fg ← api.getForegroundWindow
  api.bringWindowToTop hwnd
  api.showWindow hwnd SW_SHOW
  api.setForegroundWindow hwnd

/-- The `try` block of `focus_window`: restore if minimized (`time.sleep(0.3)`
is a no-op for the result), then `_force_foreground`. -/
def focusBody (api : OsApi) (w : WindowInfo) : Except String Unit := do
  if w.minimized then api.showWindow w.hwnd SW_RESTORE
  force_foreground api w.hwnd

/-- `focus_window(title)` from `window_manager.py`. -/
def focus_window (api : OsApi) (ws : List OSWindow) (failAfter : Option Nat)
    (title : String) : String :=
  match find_window ws failAfter title with
  | none => "No window found matching '" ++ title ++ "'"
  | some w =>
    match focusBody api w with
    | .ok _ => "Window '" ++ w.title ++ "' is now focused"
    | .error e => "Failed to focus window '" ++ w.title ++ "': " ++ e

/-- `resize_window(window_title, width, height)` from `window_manager.py`. -/
def resize_window (api : OsApi) (ws : List OSWindow) (failAfter : Option Nat)
    (windowTitle : String) (width height : Int) : String :=
  match find_window ws failAfter windowTitle with
  | none => "No window found matching '" ++ windowTitle ++ "'"
  | some w =>
    match api.setWindowPos w.hwnd HWND_TOP 0 0 width height
        (SWP_NOMOVE ||| SWP_NOZORDER) with
    | .ok _ =>
      "Window '" ++ w.title ++ "' resized to " ++ toString width ++ "x"
        ++ toString height
    | .error e => "Failed to resize window '" ++ w.title ++ "': " ++ e

/-- `move_window(window_title, x, y)` from `window_manager.py`. -/
def move_window (api : OsApi) (ws : List OSWindow) (failAfter : Option Nat)
    (windowTitle : String) (x y : Int) : String :=
  match find_window ws failAfter windowTitle with
  | none => "No window found matching '" ++ windowTitle ++ "'"
  | some w =>
    match api.setWindowPos w.hwnd HWND_TOP x y 0 0
        (SWP_NOSIZE ||| SWP_NOZORDER) with
    | .ok _ =>
      "Window '" ++ w.title ++ "' moved to (" ++ toString x ++ ", "
        ++ toString y ++ ")"
    | .error e => "Failed to move window '" ++ w.title ++ "': " ++ e

/-- `minimize_window(window_title)` from `window_manager.py`. -/
def minimize_window (api : OsApi) (ws : List OSWindow) (failAfter : Option Nat)
    (windowTitle : String) : String :=
  match find_window ws failAfter windowTitle with
  | none => "No window found matching '" ++ windowTitle ++ "'"
  | some w =>
    match api.showWindow w.hwnd SW_MINIMIZE with
    | .ok _ => "Window '" ++ w.title ++ "' minimized"
    | .error e => "Failed to minimize window '" ++ w.title ++ "': " ++ e

/-- `maximize_window(window_title)` from `window_manager.py`. -/
def maximize_window (api : OsApi) (ws : List OSWindow) (failAfter : Option Nat)
    (windowTitle : String) : String :=
  match find_window ws failAfter windowTitle with
  | none => "No window found matching '" ++ windowTitle ++ "'"
  | some w =>
    match api.showWindow w.hwnd SW_MAXIMIZE with
    | .ok _ => "Window '" ++ w.title ++ "' maximized"
    | .error e => "Failed to maximize window '" ++ w.title ++ "': " ++ e

/-- `restore_window(window_title)` from `window_manager.py`. -/
def restore_window (api : OsApi) (ws : List OSWindow) (failAfter : Option Nat)
    (windowTitle : String) : String :=
  match find_window ws failAfter windowTitle with
  | none => "No window found matching '" ++ windowTitle ++ "'"
  | some w =>
    match api.showWindow w.hwnd SW_RESTORE with
    | .ok _ => "Window '" ++ w.title ++ "' restored"
    | .error e => "Failed to restore window '" ++ w.title ++ "': " ++ e

/-! ### Concrete fixtures used by witnesses and counterexamples -/

/-- A visible window with an ordinary title. -/
def winHello : OSWindow :=
  { hwnd := 1, visible := true, title := "Hello World", left := 0, top := 0,
    right := 800, bottom := 600, showCmd := 1 }

/-- A visible window whose title is whitespace-only. -/
def winBlank : OSWindow :=
  { hwnd := 2, visible := true, title := "   ", left := 0, top := 0,
    right := 10, bottom := 10, showCmd := 1 }

/-- A second visible window matching the query "hello". -/
def winOther : OSWindow :=
  { hwnd := 3, visible := true, title := "Hello Two", left := 0, top := 0,
    right := 20, bottom := 20, showCmd := 1 }

/-- A concrete grab function for the capture fixtures. -/
def grabFixture : MssMonitor → RawImage :=
  fun m => { width := m.width, height := m.height, pixels := [1, 2, 3] }

/-- The dual-monitor raw list of the claim's example: the combined virtual
entry followed by two physical monitors. -/
def monitorsFixture : List MssMonitor :=
  [⟨0, 0, 3840, 1080⟩, ⟨0, 0, 1920, 1080⟩, ⟨1920, 0, 1920, 1080⟩]

/-- The capture environment of the repository's own regression test
`test_capture_window_hwnd_cleanup_on_exception`: a 100x80 window whose
`GetBitmapBits` returns no bytes, so the PIL conversion raises. -/
def leakEnv : HwndCaptureEnv :=
  { left := 0, top := 0, right := 100, bottom := 80,
    bmWidth := 100, bmHeight := 80, bits := [] }

/-! ## Lemmas about the window locator -/

theorem isCandidate_eq_some {w : OSWindow} {fl : Option String} {t : String}
    (h : isCandidate w fl = some t) :
    t = w.title ∧ w.visible = true ∧ w.title ≠ "" ∧ stripTruthy w.title = true ∧
      ∀ f, fl = some f → strContains f (pyLower w.title) = true := by
  simp only [isCandidate] at h
  split_ifs at h with h1 h2
  all_goals try cases h
  rw [Bool.and_eq_true, Bool.and_eq_true] at h2
  obtain ⟨⟨hne, hstrip⟩, hmf⟩ := h2
  have hvis : w.visible = true := by
    revert h1; cases w.visible <;> simp
  exact ⟨rfl, hvis, of_decide_eq_true hne, hstrip, fun f hf => by subst hf; exact hmf⟩

theorem isCandidate_weaken {w : OSWindow} {f t : String}
    (h : isCandidate w (some f) = some t) : isCandidate w none = some t := by
  obtain ⟨ht, hvis, hne, hstrip, _⟩ := isCandidate_eq_some h
  simp [isCandidate, hvis, hne, hstrip, ht]

theorem findWindowAux_nil (tl : String) (fa : Option Nat) :
    findWindowAux tl [] fa = none := rfl

theorem findWindowAux_cons_fail (tl : String) (w : OSWindow) (rest : List OSWindow) :
    findWindowAux tl (w :: rest) (some 0) = none := rfl

theorem findWindowAux_cons_none (tl : String) (w : OSWindow) (rest : List OSWindow) :
    findWindowAux tl (w :: rest) none =
      (match isCandidate w (some tl) with
        | some t => some (buildWindowInfo w t)
        | none => findWindowAux tl rest none) := rfl

theorem findWindowAux_cons_succ (tl : String) (w : OSWindow) (rest : List OSWindow)
    (k : Nat) :
    findWindowAux tl (w :: rest) (some (k + 1)) =
      (match isCandidate w (some tl) with
        | some t => some (buildWindowInfo w t)
        | none => findWindowAux tl rest (some k)) := rfl

theorem findWindowAux_none_eq_find (tl : String) (ws : List OSWindow) :
    findWindowAux tl ws none =
      (ws.find? (fun w => (isCandidate w (some tl)).isSome)).map
        (fun w => buildWindowInfo w w.title) := by
  induction ws with
  | nil => rfl
  | cons w rest ih =>
    rw [findWindowAux_cons_none]
    cases hc : isCandidate w (some tl) with
    | some t =>
      have ht : t = w.title := (isCandidate_eq_some hc).1
      rw [List.find?_cons_of_pos _ (by simp [hc])]
      simp [ht]
    | none =>
      rw [List.find?_cons_of_neg _ (by simp [hc])]
      exact ih

theorem findWindowAux_failAfter (tl : String) (ws : List OSWindow) (k : Nat) :
    findWindowAux tl ws (some k) = findWindowAux tl (ws.take k) none := by
  induction ws generalizing k with
  | nil => simp [findWindowAux_nil]
  | cons w rest ih =>
    cases k with
    | zero => simp [findWindowAux_cons_fail, findWindowAux_nil]
    | succ k =>
      rw [findWindowAux_cons_succ, List.take_succ_cons, findWindowAux_cons_none]
      cases hc : isCandidate w (some tl) with
      | some t => rfl
      | none => exact ih k

theorem findWindowAux_skip_none (tl : String) (pre ws2 : List OSWindow)
    (hpre : ∀ x ∈ pre, isCandidate x (some tl) = none) :
    findWindowAux tl (pre ++ ws2) none = findWindowAux tl ws2 none := by
  induction pre with
  | nil => rfl
  | cons x rest ih =>
    rw [List.cons_append, findWindowAux_cons_none, hpre x (by simp)]
    exact ih (fun y hy => hpre y (by simp [hy]))

theorem findWindowAux_all_none (tl : String) (l : List OSWindow)
    (h : ∀ x ∈ l, isCandidate x (some tl) = none) :
    findWindowAux tl l none = none := by
  have h2 := findWindowAux_skip_none tl l [] h
  rwa [List.append_nil] at h2

theorem findWindowAux_match_before_fail (tl : String) (w : OSWindow) (t : String)
    (post : List OSWindow) :
    ∀ (pre : List OSWindow) (k : Nat), pre.length < k →
      (∀ x ∈ pre, isCandidate x (some tl) = none) →
      isCandidate w (some tl) = some t →
      findWindowAux tl (pre ++ w :: post) (some k) = some (buildWindowInfo w t) := by
  intro pre
  induction pre with
  | nil =>
    intro k hk hpre hw
    obtain ⟨k, rfl⟩ := Nat.exists_eq_succ_of_ne_zero (Nat.pos_iff_ne_zero.mp hk)
    rw [List.nil_append, findWindowAux_cons_succ, hw]
  | cons x rest ih =>
    intro k hk hpre hw
    obtain ⟨k, rfl⟩ := Nat.exists_eq_succ_of_ne_zero
      (Nat.pos_iff_ne_zero.mp (Nat.lt_of_le_of_lt (Nat.zero_le _) hk))
    rw [List.cons_append, findWindowAux_cons_succ, hpre x (by simp)]
    exact ih k (Nat.lt_of_succ_lt_succ hk) (fun y hy => hpre y (by simp [hy])) hw

/-! ## C3: the locator returns the first visible, titled, matching window -/

/-- C3: for every query string, `find_window` (with no enumeration failure)
performs a case-insensitive substring match and returns the first visible
window with a non-empty, non-whitespace-only title whose title contains the
query, in enumeration order (the `List.find?` characterization); it stops at
that match (the result does not depend on the windows after the first
match); and it never returns a window whose title is empty or
whitespace-only. -/
theorem find_window_first_match (ws : List OSWindow) (q : String) :
    (find_window ws none q
      = (ws.find? (fun w => (isCandidate w (some (pyLower q))).isSome)).map
          (fun w => buildWindowInfo w w.title))
    ∧ (∀ info, find_window ws none q = some info →
        ∃ w, w ∈ ws ∧ w.visible = true ∧ w.title ≠ "" ∧ stripTruthy w.title = true ∧
          strContains (pyLower q) (pyLower w.title) = true ∧
          info = buildWindowInfo w w.title ∧ info.title = w.title)
    ∧ (∀ pre w post post', (∀ x ∈ pre, isCandidate x (some (pyLower q)) = none) →
        (isCandidate w (some (pyLower q))).isSome = true →
        find_window (pre ++ w :: post) none q = find_window (pre ++ w :: post') none q) := by
  refine ⟨findWindowAux_none_eq_find (pyLower q) ws, ?_, ?_⟩
  · intro info hinfo
    unfold find_window at hinfo
    rw [findWindowAux_none_eq_find] at hinfo
    obtain ⟨w, hfind, hmap⟩ := Option.map_eq_some'.mp hinfo
    have hp := List.find?_some hfind
    have hmem := List.mem_of_find?_eq_some hfind
    obtain ⟨t, hc⟩ := Option.isSome_iff_exists.mp (by simpa using hp)
    obtain ⟨ht, hvis, hne, hstrip, hcont⟩ := isCandidate_eq_some hc
    refine ⟨w, hmem, hvis, hne, hstrip, hcont _ rfl, hmap.symm, ?_⟩
    rw [← hmap]
    rfl
  · intro pre w post post' hpre hw
    obtain ⟨t, hc⟩ := Option.isSome_iff_exists.mp hw
    unfold find_window
    rw [findWindowAux_skip_none _ _ _ hpre, findWindowAux_skip_none _ _ _ hpre,
      findWindowAux_cons_none, findWindowAux_cons_none, hc]

/-- Witness for C3, applying it to a concrete window table and query:
the blank-titled window is skipped and the case-permuted query matches. -/
theorem find_window_first_match_witness :
    (∃ w, w ∈ [winBlank, winHello] ∧ w.visible = true ∧ w.title ≠ "" ∧
      stripTruthy w.title = true ∧
      strContains (pyLower "HELLO") (pyLower w.title) = true ∧
      buildWindowInfo winHello winHello.title = buildWindowInfo w w.title ∧
      (buildWindowInfo winHello winHello.title).title = w.title)
    ∧ find_window ([winBlank] ++ winHello :: [winOther]) none "HELLO"
        = find_window ([winBlank] ++ winHello :: []) none "HELLO" :=
  ⟨(find_window_first_match [winBlank, winHello] "HELLO").2.1
      (buildWindowInfo winHello winHello.title) (by decide),
   (find_window_first_match [] "HELLO").2.2 [winBlank] winHello [winOther] []
      (by decide) (by decide)⟩

/-! ## C4: enumeration failures are swallowed -/

/-- C4: if the underlying enumeration raises after `k` callback invocations,
`find_window` swallows the exception: it behaves exactly as if it had
enumerated only the first `k` windows; in particular it returns absent when
no match was recorded before the failure, and it returns the already-found
match when a match occurred before the failure. -/
theorem find_window_enum_failure (ws : List OSWindow) (k : Nat) (q : String) :
    find_window ws (some k) q = find_window (ws.take k) none q
    ∧ ((∀ w ∈ ws.take k, isCandidate w (some (pyLower q)) = none) →
        find_window ws (some k) q = none)
    ∧ (∀ pre w post, ws = pre ++ w :: post → pre.length < k →
        (∀ x ∈ pre, isCandidate x (some (pyLower q)) = none) →
        ∀ t, isCandidate w (some (pyLower q)) = some t →
          find_window ws (some k) q = some (buildWindowInfo w t)) := by
  refine ⟨findWindowAux_failAfter (pyLower q) ws k, ?_, ?_⟩
  · intro hnone
    unfold find_window
    rw [findWindowAux_failAfter]
    exact findWindowAux_all_none _ _ hnone
  · intro pre w post hws hk hpre t hc
    subst hws
    exact findWindowAux_match_before_fail (pyLower q) w t post pre k hk hpre hc

/-- Witness for C4 at concrete inputs: a failure before any match yields
absent; a failure after the first match still yields that match. -/
theorem find_window_enum_failure_witness :
    find_window [winBlank, winHello] (some 1) "hello" = none ∧
    find_window [winHello, winOther] (some 1) "hello"
      = some (buildWindowInfo winHello winHello.title) :=
  ⟨(find_window_enum_failure [winBlank, winHello] 1 "hello").2.1 (by decide),
   (find_window_enum_failure [winHello, winOther] 1 "hello").2.2 [] winHello [winOther]
     rfl (by decide) (by decide) winHello.title (by decide)⟩

/-! ## C1: the adaptive waiter -/

theorem waitCore_none_bound (locate : Nat → Option WindowInfo) (T : ℚ)
    (hnone : ∀ i, locate i = none) :
    ∀ (n : Nat) (i : Nat) (e : ℚ), T ≤ e + (n : ℚ) * (1/5) → e ≤ T + 1/2 →
      ∃ fuel r, waitCore locate T fuel i e = some (none, r) ∧ T ≤ r ∧ r ≤ T + 1/2 := by
  intro n
  induction n with
  | zero =>
    intro i e h0 hub
    have hTe : T ≤ e := by simpa using h0
    refine ⟨1, e, ?_, hTe, hub⟩
    unfold waitCore
    rw [if_neg (not_lt.mpr hTe)]
  | succ n ih =>
    intro i e h0 hub
    by_cases he : e < T
    · have hd : (1/5 : ℚ) ≤ sleepDur e := by
        unfold sleepDur; split_ifs <;> norm_num
      have hd2 : sleepDur e ≤ 1/2 := by
        unfold sleepDur; split_ifs <;> norm_num
      have h1 : T ≤ (e + sleepDur e) + (n : ℚ) * (1/5) := by
        push_cast at h0
        linarith
      have h2 : e + sleepDur e ≤ T + 1/2 := by linarith
      obtain ⟨fuel, r, hrun, hlb, hub2⟩ := ih (i + 1) (e + sleepDur e) h1 h2
      refine ⟨fuel + 1, r, ?_, hlb, hub2⟩
      unfold waitCore
      rw [if_pos he, hnone i]
      exact hrun
    · have hTe : T ≤ e := not_lt.mp he
      refine ⟨1, e, ?_, hTe, hub⟩
      unfold waitCore
      rw [if_neg he]

/-- C1 counterexample: with timeout 0 and locate immediately finding a window,
the source loop (deadline check first) reports a timeout without ever calling
locate, while the loop as the claim words it (locate first, deadline check
second) returns the window — so the code does not execute the claim's loop. -/
theorem wait_loop_order_counterexample :
    pollForWindow (fun _ => some (buildWindowInfo winHello winHello.title)) 0 1
      = some (none, 0)
    ∧ waitClaimOrder (fun _ => some (buildWindowInfo winHello winHello.title)) 0 1 0 0
      = some (some (buildWindowInfo winHello winHello.title), 0) := by
  refine ⟨by decide, by decide⟩

/-- C1 (amended): the polling loop of `wait_for_window` / `_wait_for_window`
checks the deadline BEFORE each locate call: if elapsed ≥ T it returns
absent, else it calls locate (returning the window if found), else sleeps
0.2s while elapsed < 5s and 0.5s afterwards, and retries.  Consequently,
when no matching window ever appears and T ≥ 0, it returns absent at an
elapsed time r with T ≤ r ≤ T + one sleep interval (at most 0.5s), and
`wait_for_window` renders that outcome as the timeout message. -/
theorem wait_timeout_bounds (locate : Nat → Option WindowInfo) (T : ℚ)
    (hT : 0 ≤ T) (hnone : ∀ i, locate i = none) :
    ∃ fuel r, pollForWindow locate T fuel = some (none, r) ∧ T ≤ r ∧ r ≤ T + 1/2 ∧
      ∀ title, wait_for_window locate title T fuel
        = some ("Timed out waiting for window matching '" ++ title ++ "' after "
            ++ toString T ++ "s") := by
  obtain ⟨n, hn⟩ := exists_nat_ge (5 * T)
  have h0 : T ≤ 0 + (n : ℚ) * (1/5) := by linarith
  have hub : (0 : ℚ) ≤ T + 1/2 := by linarith
  obtain ⟨fuel, r, hrun, hlb, hub2⟩ := waitCore_none_bound locate T hnone n 0 0 h0 hub
  refine ⟨fuel, r, hrun, hlb, hub2, ?_⟩
  intro title
  unfold wait_for_window
  rw [show waitCore locate T fuel 0 0 = some (none, r) from hrun]
  rfl

/-- Witness for C1 (amended) at T = 1 with a locate that never finds. -/
theorem wait_timeout_bounds_witness :
    ∃ fuel r, pollForWindow (fun _ => none) 1 fuel = some (none, r) ∧ 1 ≤ r ∧
      r ≤ 1 + 1/2 ∧
      ∀ title, wait_for_window (fun _ => none) title 1 fuel
        = some ("Timed out waiting for window matching '" ++ title ++ "' after "
            ++ toString (1 : ℚ) ++ "s") :=
  wait_timeout_bounds (fun _ => none) 1 (by norm_num) (fun _ => rfl)

/-! ## C7: filtering only removes entries -/

theorem filterMap_sublist_of_imp {α β : Type} (l : List α) (g1 g2 : α → Option β)
    (h : ∀ a b, g1 a = some b → g2 a = some b) :
    List.Sublist (l.filterMap g1) (l.filterMap g2) := by
  induction l with
  | nil => simp
  | cons x rest ih =>
    rw [List.filterMap_cons, List.filterMap_cons]
    cases hg1 : g1 x with
    | some b =>
      rw [h x b hg1]
      exact ih.cons₂ b
    | none =>
      cases hg2 : g2 x with
      | some b => exact ih.cons b
      | none => exact ih

/-- C7 counterexample: a filter that matches every visible, titled window
yields exactly the same list as no filter, so `enumerate(filter)` is not, in
general, a STRICT subset of `enumerate(None)`. -/
theorem list_windows_not_strict :
    list_windows ⟨[winHello], 1⟩ (some "hello") = list_windows ⟨[winHello], 1⟩ none := by
  decide

/-- C7 (amended): for every OS state and filter string, the filtered window
list is a sublist (hence a subset, not necessarily strict) of the unfiltered
one, and the empty-string filter returns exactly the same entries as no
filter. -/
theorem list_windows_filter_sublist (os : OSState) (f : String) :
    List.Sublist (list_windows os (some f)) (list_windows os none)
    ∧ list_windows os (some "") = list_windows os none := by
  constructor
  · by_cases hf : f = ""
    · subst hf
      exact List.Sublist.refl _
    · unfold list_windows
      simp only [hf, if_false]
      refine filterMap_sublist_of_imp _ _ _ ?_
      intro w e hw
      obtain ⟨t, hc, he⟩ := Option.map_eq_some'.mp hw
      rw [Option.map_eq_some']
      exact ⟨t, isCandidate_weaken hc, he⟩
  · unfold list_windows
    rfl

/-! ## C5: monitor capture range check and PNG output -/

/-- C5: `capture_full_screen` fails with the out-of-range `ValueError` iff
the index is negative or at least the number of monitor entries (the virtual
combined entry included in the count), and every success returns bytes
beginning with the standard PNG signature. -/
theorem capture_full_screen_range (grab : MssMonitor → RawImage)
    (ms : List MssMonitor) (i : Int) :
    ((∃ e, capture_full_screen grab ms i = .error e) ↔
      (i < 0 ∨ (ms.length : Int) ≤ i))
    ∧ (∀ bytes, capture_full_screen grab ms i = .ok bytes →
        bytes.take 8 = pngSignature)
    ∧ (¬(i < 0 ∨ (ms.length : Int) ≤ i) →
        ∃ bytes, capture_full_screen grab ms i = .ok bytes) := by
  refine ⟨?_, ?_, ?_⟩
  · constructor
    · rintro ⟨e, he⟩
      by_contra hrange
      unfold capture_full_screen at he
      rw [if_neg hrange] at he
      cases he
    · intro hrange
      refine ⟨"Monitor " ++ toString i ++ " not found. Available: 0-"
        ++ toString (ms.length - 1) ++ " (0 = all monitors combined)", ?_⟩
      unfold capture_full_screen
      rw [if_pos hrange]
  · intro bytes hb
    unfold capture_full_screen at hb
    split_ifs at hb
    all_goals cases hb
    rfl
  · intro hrange
    refine ⟨pilSavePng (grab (ms.getD i.toNat default)), ?_⟩
    unfold capture_full_screen
    rw [if_neg hrange]

/-- Witness for C5: a valid index yields PNG-signature-led bytes, and an
out-of-range index yields an error, on the dual-monitor fixture. -/
theorem capture_full_screen_range_witness :
    (pilSavePng { width := 1920, height := 1080, pixels := [1, 2, 3] }).take 8
        = pngSignature
    ∧ (∃ e, capture_full_screen grabFixture monitorsFixture 5 = .error e)
    ∧ ∃ bytes, capture_full_screen grabFixture monitorsFixture 0 = .ok bytes :=
  ⟨(capture_full_screen_range grabFixture monitorsFixture 1).2.1 _ rfl,
   (capture_full_screen_range grabFixture monitorsFixture 5).1.mpr (by decide),
   (capture_full_screen_range grabFixture monitorsFixture 0).2.2 (by decide)⟩

/-! ## C6: the monitor directory -/

/-- C6: `list_monitors` (modelled from the spec, its body being absent from
the given sources) returns one record per physical monitor — entry 0, the
virtual combined desktop, excluded — where the record at position k carries
the 1-based index k+1, the geometry of raw entry k+1, and a primary flag
that is true exactly when that monitor's top-left origin is (0, 0); on the
claim's dual-monitor example it yields exactly two records, index 1 primary
and index 2 not primary. -/
theorem list_monitors_spec (ms : List MssMonitor) :
    (list_monitors ms).length = ms.length - 1
    ∧ (∀ k, (list_monitors ms)[k]? = ms[k + 1]?.map (fun m =>
        { index := k + 1, width := m.width, height := m.height, x := m.left,
          y := m.top, is_primary := decide (m.left = 0 ∧ m.top = 0) }))
    ∧ list_monitors monitorsFixture
        = [{ index := 1, width := 1920, height := 1080, x := 0, y := 0,
             is_primary := true },
           { index := 2, width := 1920, height := 1080, x := 1920, y := 0,
             is_primary := false }] := by
  refine ⟨?_, ?_, by decide⟩
  · simp [list_monitors]
  · intro k
    unfold list_monitors
    rw [List.getElem?_map, List.getElem?_enum, List.getElem?_drop, Nat.add_comm 1 k]
    cases ms[k + 1]? <;> rfl

/-! ## C2: resource release in capture_window_hwnd -/

/-- C2 (code bug): at the failing input of the repository's own regression
test `test_capture_window_hwnd_cleanup_on_exception` — window rect
(0, 0, 100, 80), `GetBitmapBits` returning no bytes — the PIL conversion
raises, and the source releases NONE of the four acquired Win32 resources:
its cleanup block (`DeleteObject` / `DeleteDC` / `ReleaseDC`) runs only
after a successful conversion, there being no `try`/`finally`.  The claim
(and the test) require every acquired resource to be released on failure
paths as well. -/
theorem capture_window_hwnd_leak_on_error :
    (capture_window_hwnd leakEnv).1 = .error "not enough image data"
    ∧ (capture_window_hwnd leakEnv).2.1
      = [Win32Res.windowDC, Win32Res.mfcDC, Win32Res.saveDC, Win32Res.bitmap]
    ∧ (capture_window_hwnd leakEnv).2.2 = [] := by
  refine ⟨rfl, rfl, rfl⟩

/-! ## C8: the six manipulation operations never raise -/

/-- C8: for every behavior of the underlying pywin32 calls — including any
of them raising — each of the six window-manipulation operations is a total
function into status strings: the result is always the not-found message, a
success message, or a failure message built from the caught exception text;
no exception propagates. -/
theorem manipulation_ops_never_raise (api : OsApi) (ws : List OSWindow)
    (fa : Option Nat) (title : String) (width height x y : Int) :
    (focus_window api ws fa title = "No window found matching '" ++ title ++ "'"
      ∨ (∃ t, focus_window api ws fa title = "Window '" ++ t ++ "' is now focused")
      ∨ (∃ t e, focus_window api ws fa title
          = "Failed to focus window '" ++ t ++ "': " ++ e))
    ∧ (resize_window api ws fa title width height
          = "No window found matching '" ++ title ++ "'"
      ∨ (∃ t, resize_window api ws fa title width height
          = "Window '" ++ t ++ "' resized to " ++ toString width ++ "x"
            ++ toString height)
      ∨ (∃ t e, resize_window api ws fa title width height
          = "Failed to resize window '" ++ t ++ "': " ++ e))
    ∧ (move_window api ws fa title x y
          = "No window found matching '" ++ title ++ "'"
      ∨ (∃ t, move_window api ws fa title x y
          = "Window '" ++ t ++ "' moved to (" ++ toString x ++ ", "
            ++ toString y ++ ")")
      ∨ (∃ t e, move_window api ws fa title x y
          = "Failed to move window '" ++ t ++ "': " ++ e))
    ∧ (minimize_window api ws fa title = "No window found matching '" ++ title ++ "'"
      ∨ (∃ t, minimize_window api ws fa title = "Window '" ++ t ++ "' minimized")
      ∨ (∃ t e, minimize_window api ws fa title
          = "Failed to minimize window '" ++ t ++ "': " ++ e))
    ∧ (maximize_window api ws fa title = "No window found matching '" ++ title ++ "'"
      ∨ (∃ t, maximize_window api ws fa title = "Window '" ++ t ++ "' maximized")
      ∨ (∃ t e, maximize_window api ws fa title
          = "Failed to maximize window '" ++ t ++ "': " ++ e))
    ∧ (restore_window api ws fa title = "No window found matching '" ++ title ++ "'"
      ∨ (∃ t, restore_window api ws fa title = "Window '" ++ t ++ "' restored")
      ∨ (∃ t e, restore_window api ws fa title
          = "Failed to restore window '" ++ t ++ "': " ++ e)) := by
  refine ⟨?_, ?_, ?_, ?_, ?_, ?_⟩
  · cases hf : find_window ws fa title with
    | none => exact Or.inl (by simp [focus_window, hf])
    | some w =>
      cases hb : focusBody api w with
      | ok u => exact Or.inr (Or.inl ⟨w.title, by simp [focus_window, hf, hb]⟩)
      | error e => exact Or.inr (Or.inr ⟨w.title, e, by simp [focus_window, hf, hb]⟩)
  · cases hf : find_window ws fa title with
    | none => exact Or.inl (by simp [resize_window, hf])
    | some w =>
      cases hb : api.setWindowPos w.hwnd HWND_TOP 0 0 width height
          (SWP_NOMOVE ||| SWP_NOZORDER) with
      | ok u => exact Or.inr (Or.inl ⟨w.title, by simp [resize_window, hf, hb]⟩)
      | error e =>
        exact Or.inr (Or.inr ⟨w.title, e, by simp [resize_window, hf, hb]⟩)
  · cases hf : find_window ws fa title with
    | none => exact Or.inl (by simp [move_window, hf])
    | some w =>
      cases hb : api.setWindowPos w.hwnd HWND_TOP x y 0 0
          (SWP_NOSIZE ||| SWP_NOZORDER) with
      | ok u => exact Or.inr (Or.inl ⟨w.title, by simp [move_window, hf, hb]⟩)
      | error e =>
        exact Or.inr (Or.inr ⟨w.title, e, by simp [move_window, hf, hb]⟩)
  · cases hf : find_window ws fa title with
    | none => exact Or.inl (by simp [minimize_window, hf])
    | some w =>
      cases hb : api.showWindow w.hwnd SW_MINIMIZE with
      | ok u => exact Or.inr (Or.inl ⟨w.title, by simp [minimize_window, hf, hb]⟩)
      | error e =>
        exact Or.inr (Or.inr ⟨w.title, e, by simp [minimize_window, hf, hb]⟩)
  · cases hf : find_window ws fa title with
    | none => exact Or.inl (by simp [maximize_window, hf])
    | some w =>
      cases hb : api.showWindow w.hwnd SW_MAXIMIZE with
      | ok u => exact Or.inr (Or.inl ⟨w.title, by simp [maximize_window, hf, hb]⟩)
      | error e =>
        exact Or.inr (Or.inr ⟨w.title, e, by simp [maximize_window, hf, hb]⟩)
  · cases hf : find_window ws fa title with
    | none => exact Or.inl (by simp [restore_window, hf])
    | some w =>
      cases hb : api.showWindow w.hwnd SW_RESTORE with
      | ok u => exact Or.inr (Or.inl ⟨w.title, by simp [restore_window, hf, hb]⟩)
      | error e =>
        exact Or.inr (Or.inr ⟨w.title, e, by simp [restore_window, hf, hb]⟩)

/-! ## C9: launch failure reporting -/

/-- C9: when the executable cannot be resolved, `open_application` returns
exactly the "Command not found" error naming the command; any other spawn
failure yields the generic launch error; neither failure result carries a
pid; and the claim's concrete example holds. -/
theorem open_application_failures (locate : Nat → Option WindowInfo)
    (command : String) (args : List String) (waitTitle : Option String)
    (timeout : Int) (fuel : Nat) :
    open_application .fileNotFound locate command args waitTitle timeout fuel
        = some { error := some ("Command not found: " ++ command) }
    ∧ (∀ e, open_application (.failure e) locate command args waitTitle timeout fuel
        = some { error := some ("Failed to launch: " ++ e) })
    ∧ ({ error := some ("Command not found: " ++ command) } : ProcessResult).pid = none
    ∧ (∀ e, ({ error := some ("Failed to launch: " ++ e) } : ProcessResult).pid = none)
    ∧ open_application .fileNotFound locate "nonexistent.exe" args waitTitle timeout
        fuel = some { error := some "Command not found: nonexistent.exe" } := by
  exact ⟨rfl, fun e => rfl, rfl, fun e => rfl, rfl⟩

/-! ## C10: run_python_script always reports a window after a successful wait -/

/-- C10: in `run_python_script`, whenever the initial wait succeeds, the
final result contains a `window` field: its value is the rect of the
re-queried window if the later `find_window` call still finds one, and the
rect of the originally found window otherwise (the `or` fallback) — the
field is never dropped and no error is reported. -/
theorem run_python_script_window_fallback (locate : Nat → Option WindowInfo)
    (requery : Option WindowInfo) (comm : CommOutcome) (scriptPath : String)
    (captureAfter : ℚ) (timeout : Int) (fuel : Nat) (pid : Nat) (wt : String)
    (w : WindowInfo) (tr : ℚ) (hwt : wt ≠ "")
    (hpoll : pollForWindow locate (timeout : ℚ) fuel = some (some w, tr)) :
    ∃ r, run_python_script (.ok pid) locate requery comm scriptPath (some wt)
        captureAfter timeout fuel = some r
      ∧ r.window = some (windowRect (pyOrWindow requery w))
      ∧ r.error = none
      ∧ (requery = none → r.window = some (windowRect w)) := by
  cases comm with
  | done out err code =>
    refine ⟨{ pid := some pid
              script := some scriptPath
              window := some (windowRect (pyOrWindow requery w))
              stdout := some out
              stderr := some err
              returncode := some code }, ?_, rfl, rfl, ?_⟩
    · simp only [run_python_script]
      rw [if_neg hwt, hpoll]
      rfl
    · intro hreq
      subst hreq
      rfl
  | timedOut =>
    refine ⟨{ pid := some pid
              script := some scriptPath
              window := some (windowRect (pyOrWindow requery w))
              note := some "Process still running (GUI app likely)" }, ?_, rfl, rfl, ?_⟩
    · simp only [run_python_script]
      rw [if_neg hwt, hpoll]
      rfl
    · intro hreq
      subst hreq
      rfl

/-- Witness for C10: a script whose window is found immediately, whose
re-query finds nothing (the window vanished), and whose process is still
running: the result still carries the original window's rect. -/
theorem run_python_script_window_fallback_witness :
    ∃ r, run_python_script (.ok 7)
        (fun _ => some (buildWindowInfo winHello winHello.title)) none .timedOut
        "script.py" (some "app") 2 30 1 = some r
      ∧ r.window = some (windowRect (pyOrWindow none (buildWindowInfo winHello winHello.title)))
      ∧ r.error = none
      ∧ ((none : Option WindowInfo) = none →
          r.window = some (windowRect (buildWindowInfo winHello winHello.title))) :=
  run_python_script_window_fallback
    (fun _ => some (buildWindowInfo winHello winHello.title)) none .timedOut
    "script.py" 2 30 1 7 "app" (buildWindowInfo winHello winHello.title) 0
    (by decide) (by decide)

end WinSight
